import Mathlib

/-
Verification development for the Flask camera-streaming and command-relay
application (src/app.py).

The file shallowly embeds the two cores of the program:

1. the resilient capture loop of the generator function generate_frames
   (app.py lines 66-145): each iteration of the inner while-loop performs
   grab/retrieve, maintains the consecutive_failures counter, encodes to
   JPEG, yields a multipart chunk, and at five consecutive failures
   releases the handle and breaks back to the outer reopen loop;

2. the HTTP command handlers joystick (lines 163-175) and run_program
   (lines 179-191), which parse a JSON body, write one newline-terminated
   json.dumps line to the module-level serial link when it exists, and
   return a JSON response.

Machine-level effects (prints, real sleeping, the cv2 and pyserial
internals) are abstracted into an explicit event trace and an explicit
link state; the control flow is translated line by line from the source.
-/

namespace App

/-- A byte of a payload or of an emitted chunk, as a natural number. -/
abbrev Byte := Nat

/-- The bytes of a string, one code point per byte (the payloads in scope
are ASCII, where this agrees with UTF-8 encoding as used by Python). -/
def asciiBytes (s : String) : List Byte :=
  s.data.map Char.toNat

/-- Observable actions of one pass through the generate_frames control
flow, in program order: an attempt to open the camera (a call to
get_camera, line 75), the 2 s sleep of the no-camera branch (line 78),
the 1 s sleep before reopening (line 145), the 20 ms inter-iteration
pause (line 136), yielding a multipart chunk (lines 123-124), and
releasing the camera handle (lines 130 and 141). -/
inductive Event where
  | openAttempt
  | sleep2s
  | sleep1s
  | sleep20ms
  | emit (bytes : List Byte)
  | release
deriving DecidableEq

/-- Outcome of one read attempt in the inner loop of generate_frames:
grab() returns false (line 108); grab succeeds but retrieve() fails or
returns no frame (line 113); read succeeds but cv2.imencode fails
(line 119); read and encode both succeed with the given JPEG payload
bytes (lines 118-124). -/
inductive ReadOutcome where
  | grabFail
  | retrieveFail
  | encodeFail
  | success (payload : List Byte)
deriving DecidableEq

/-- The multipart chunk built at lines 123-124 of app.py: the two adjacent
Python byte literals, then the JPEG payload, then the trailing CRLF. -/
def wrapFrame (payload : List Byte) : List Byte :=
  (asciiBytes "--frame\r\n" ++ asciiBytes "Content-Type: image/jpeg\r\n\r\n")
    ++ payload ++ asciiBytes "\r\n"

/-- The framing the specification describes for an emitted frame, written
from the words of the spec for comparison with wrapFrame. -/
def specMultipartFraming (payload : List Byte) : List Byte :=
  asciiBytes "--frame\r\nContent-Type: image/jpeg\r\n\r\n"
    ++ payload ++ asciiBytes "\r\n"

/-- Result of running part of the inner capture loop: the value of the
consecutive_failures counter, the events performed, and whether the loop
terminated through the threshold break at line 133. -/
structure RunResult where
  counter : Nat
  events : List Event
  terminated : Bool
deriving DecidableEq

/-- One iteration of the inner while-loop of generate_frames (lines
105-136), given the current consecutive_failures counter and the outcome
of this read attempt.

A failed grab or retrieve increments the counter (lines 109, 114); a
successful read resets it to zero (line 117); an encode failure leaves
the reset counter at zero and continues (line 121), skipping both the
threshold check and the 20 ms pause. After every non-continue iteration,
the counter is compared with 5 (line 127): at the threshold the handle
is released and the loop breaks (lines 130-133), otherwise the iteration
ends with the 20 ms pause (line 136). -/
def sessionStep (c : Nat) (o : ReadOutcome) : RunResult :=
  match o with
  | ReadOutcome.grabFail =>
      if c + 1 ≥ 5 then ⟨c + 1, [Event.release], true⟩
      else ⟨c + 1, [Event.sleep20ms], false⟩
  | ReadOutcome.retrieveFail =>
      if c + 1 ≥ 5 then ⟨c + 1, [Event.release], true⟩
      else ⟨c + 1, [Event.sleep20ms], false⟩
  | ReadOutcome.encodeFail =>
      ⟨0, [], false⟩
  | ReadOutcome.success p =>
      ⟨0, [Event.emit (wrapFrame p), Event.sleep20ms], false⟩

/-- Run the inner capture loop over a list of read outcomes, starting from
counter value c. Once the threshold break fires, the remaining outcomes
are not processed, matching the break at line 133. -/
def sessionRun (c : Nat) : List ReadOutcome → RunResult
  | [] => ⟨c, [], false⟩
  | o :: rest =>
      match sessionStep c o with
      | ⟨c2, evs, true⟩ => ⟨c2, evs, true⟩
      | ⟨c2, evs, false⟩ =>
          match sessionRun c2 rest with
          | ⟨c3, evs2, t⟩ => ⟨c3, evs ++ evs2, t⟩

/-- What follows the threshold break: the finally-block release of the
handle (line 141, idempotent with the release at line 130), the 1 s
pause at line 145, and the next get_camera call of the outer loop
(line 75). -/
def recoveryTail : List Event :=
  [Event.release, Event.sleep1s, Event.openAttempt]

/-- The event trace of a capture session started at counter 0: the events
of the inner loop, followed, when the threshold break fired, by the
finally-release, the 1 s pause, and the reopen attempt. -/
def sessionTrace (outcomes : List ReadOutcome) : List Event :=
  let r := sessionRun 0 outcomes
  if r.terminated then r.events ++ recoveryTail else r.events

/-- Trace of n iterations of the outer loop of generate_frames when
get_camera returns None every time (lines 74-79): each cycle is one open
attempt followed by the 2 s sleep, with no yield anywhere. -/
def generateFramesNoCamera : Nat → List Event
  | 0 => []
  | n + 1 => Event.openAttempt :: Event.sleep2s :: generateFramesNoCamera n

/-- Whether a trace contains any emitted chunk. -/
def emitsFrame : List Event → Bool
  | [] => false
  | Event.emit _ :: _ => true
  | _ :: rest => emitsFrame rest

/-- Number of camera open attempts in a trace. -/
def countOpenAttempts : List Event → Nat
  | [] => 0
  | Event.openAttempt :: rest => countOpenAttempts rest + 1
  | _ :: rest => countOpenAttempts rest

mutual
/-- A JSON value, as produced by request.get_json() and consumed by
json.dumps and jsonify. Arrays and objects carry their own list types so
that recursion over the tree stays structural. -/
inductive Json where
  | null
  | bool (b : Bool)
  | num (n : Int)
  | str (s : String)
  | arr (elems : JsonList)
  | obj (fields : JsonFields)
deriving DecidableEq

/-- The elements of a JSON array. -/
inductive JsonList where
  | nil
  | cons (head : Json) (tail : JsonList)
deriving DecidableEq

/-- The key-value fields of a JSON object, in insertion order. -/
inductive JsonFields where
  | nil
  | cons (key : String) (val : Json) (tail : JsonFields)
deriving DecidableEq
end

mutual
/-- Serialization of a JSON value in the form produced by json.dumps with
its default separators, as used at app.py lines 170 and 186. -/
def Json.dumps : Json → String
  | Json.null => "null"
  | Json.bool true => "true"
  | Json.bool false => "false"
  | Json.num n => toString n
  | Json.str s => "\"" ++ s ++ "\""
  | Json.arr es => "[" ++ JsonList.dumpsElems es ++ "]"
  | Json.obj fs => "\x7b" ++ JsonFields.dumpsFields fs ++ "\x7d"

/-- Comma-separated serialization of the elements of a JSON array. -/
def JsonList.dumpsElems : JsonList → String
  | JsonList.nil => ""
  | JsonList.cons e JsonList.nil => Json.dumps e
  | JsonList.cons e rest => Json.dumps e ++ ", " ++ JsonList.dumpsElems rest

/-- Comma-separated serialization of the fields of a JSON object. -/
def JsonFields.dumpsFields : JsonFields → String
  | JsonFields.nil => ""
  | JsonFields.cons k v JsonFields.nil => "\"" ++ k ++ "\": " ++ Json.dumps v
  | JsonFields.cons k v rest =>
      "\"" ++ k ++ "\": " ++ Json.dumps v ++ ", " ++ JsonFields.dumpsFields rest
end

/-- First field with the given key, scanning in insertion order. -/
def JsonFields.findField : JsonFields → String → Option Json
  | JsonFields.nil, _ => none
  | JsonFields.cons k v rest, key =>
      if k = key then some v else JsonFields.findField rest key

/-- Look up a top-level field of a JSON object; none on non-objects. -/
def Json.getField : Json → String → Option Json
  | Json.obj fs, key => JsonFields.findField fs key
  | _, _ => none

/-- The state of the serial link to the microcontroller: whether the
underlying port is usable (a write on an unusable port raises in
pyserial, caught by the handler's except clause), and the newline
terminated lines written so far. -/
structure Link where
  isOpen : Bool
  written : List (List Byte)
deriving DecidableEq

/-- One call to arduino.write with the encoded bytes of one command line
(app.py lines 170-171 and 186-187): on a usable port the whole line is
appended to the stream; on an unusable port the call fails with an
exception message instead. -/
def linkWrite (l : Link) (line : List Byte) : Except String Link :=
  if l.isOpen then Except.ok { l with written := l.written ++ [line] }
  else Except.error "Port is not open"

/-- What a command handler returns, together with the link state after the
call: the HTTP status code and the JSON body built by jsonify. -/
structure HandlerResult where
  link : Option Link
  status : Nat
  body : Json
deriving DecidableEq

/-- The jsonify body of the success path (app.py lines 173 and 189). -/
def okBody (data : Json) : Json :=
  Json.obj (JsonFields.cons "status" (Json.str "ok")
    (JsonFields.cons "sent" data JsonFields.nil))

/-- The jsonify body of the except path (app.py lines 175 and 191). -/
def errorBody (message : String) : Json :=
  Json.obj (JsonFields.cons "status" (Json.str "error")
    (JsonFields.cons "message" (Json.str message) JsonFields.nil))

/-- The joystick handler (app.py lines 163-175). The request body is
given as parsed by request.get_json(): none when parsing raised (non-JSON
body), some data otherwise. A raised parse error is caught by the except
clause and answered with status 500 and an error body; with a parsed
body, the line json.dumps(data) + newline is written to the link when
the arduino variable is not None, a write failure is likewise caught and
answered with 500, and otherwise the handler returns 200 with the ok
body echoing the parsed data. -/
def joystick (arduino : Option Link) (reqBody : Option Json) : HandlerResult :=
  match reqBody with
  | none => ⟨arduino, 500, errorBody "Bad Request"⟩
  | some data =>
      match arduino with
      | none => ⟨none, 200, okBody data⟩
      | some l =>
          match linkWrite l (asciiBytes (Json.dumps data ++ "\n")) with
          | Except.ok l2 => ⟨some l2, 200, okBody data⟩
          | Except.error e => ⟨some l, 500, errorBody e⟩

/-- The run_program handler (app.py lines 179-191); its body is identical
to joystick up to log text, with request.json in place of
request.get_json() (the same parse, raising on a non-JSON body). -/
def run_program (arduino : Option Link) (reqBody : Option Json) : HandlerResult :=
  match reqBody with
  | none => ⟨arduino, 500, errorBody "Bad Request"⟩
  | some data =>
      match arduino with
      | none => ⟨none, 200, okBody data⟩
      | some l =>
          match linkWrite l (asciiBytes (Json.dumps data ++ "\n")) with
          | Except.ok l2 => ⟨some l2, 200, okBody data⟩
          | Except.error e => ⟨some l, 500, errorBody e⟩

/-- An HTTP command submission: which endpoint was called and the parsed
request body (none for a non-JSON body). -/
inductive Command where
  | joy (reqBody : Option Json)
  | run (reqBody : Option Json)
deriving DecidableEq

/-- Dispatch one command submission to its handler. -/
def execCommand (arduino : Option Link) : Command → HandlerResult
  | Command.joy b => joystick arduino b
  | Command.run b => run_program arduino b

/-- Process a sequence of command submissions, threading the link state
from each handler call to the next, and collect the handler results. -/
def processCommands (arduino : Option Link) :
    List Command → Option Link × List HandlerResult
  | [] => (arduino, [])
  | c :: rest =>
      match processCommands (execCommand arduino c).link rest with
      | (l2, rs) => (l2, execCommand arduino c :: rs)

/-- The module-level startup of app.py lines 11-22: one attempt to open
the serial link; on success the arduino variable holds an open link with
nothing written yet, on failure it is set to None. No other code in the
program ever assigns to arduino. -/
def initLink (openSucceeds : Bool) : Option Link :=
  if openSucceeds then some ⟨true, []⟩ else none

/-- The example request body of the specification, parsed from the JSON
text with keys x and y mapping to 1 and -1. -/
def exampleBody : Json :=
  Json.obj (JsonFields.cons "x" (Json.num 1)
    (JsonFields.cons "y" (Json.num (-1)) JsonFields.nil))

/-! Helper lemmas about the capture loop and the command path. -/

/-- Unfolding lemma: a failed grab below the threshold increments the
counter and ends the iteration with the 20 ms pause. -/
theorem sessionStep_grabFail_lt (c : Nat) (h : c + 1 < 5) :
    sessionStep c ReadOutcome.grabFail = ⟨c + 1, [Event.sleep20ms], false⟩ := by
  simp [sessionStep, Nat.not_le.mpr h]

/-- Unfolding lemma: a failed grab reaching the threshold releases the
handle and terminates the session. -/
theorem sessionStep_grabFail_ge (c : Nat) (h : c + 1 ≥ 5) :
    sessionStep c ReadOutcome.grabFail = ⟨c + 1, [Event.release], true⟩ := by
  simp [sessionStep, h]

/-- Unfolding lemma: a failed retrieve below the threshold increments the
counter and ends the iteration with the 20 ms pause. -/
theorem sessionStep_retrieveFail_lt (c : Nat) (h : c + 1 < 5) :
    sessionStep c ReadOutcome.retrieveFail = ⟨c + 1, [Event.sleep20ms], false⟩ := by
  simp [sessionStep, Nat.not_le.mpr h]

/-- Unfolding lemma: a failed retrieve reaching the threshold releases
the handle and terminates the session. -/
theorem sessionStep_retrieveFail_ge (c : Nat) (h : c + 1 ≥ 5) :
    sessionStep c ReadOutcome.retrieveFail = ⟨c + 1, [Event.release], true⟩ := by
  simp [sessionStep, h]

/-- Invariant of the inner capture loop, started at any counter value up
to 4: while the loop is still running the counter stays at most 4, and
when the loop has terminated the counter is exactly 5 and the handle was
released. -/
theorem sessionRun_counter_invariant (outcomes : List ReadOutcome) :
    ∀ c, c ≤ 4 →
      ((sessionRun c outcomes).terminated = false →
        (sessionRun c outcomes).counter ≤ 4) ∧
      ((sessionRun c outcomes).terminated = true →
        (sessionRun c outcomes).counter = 5 ∧
        Event.release ∈ (sessionRun c outcomes).events) := by
  induction outcomes with
  | nil =>
      intro c hc
      exact ⟨fun _ => hc, fun h => by simp [sessionRun] at h⟩
  | cons o rest ih =>
      intro c hc
      cases o with
      | grabFail =>
          rcases Nat.lt_or_ge (c + 1) 5 with h5 | h5
          · have hrec := ih (c + 1) (by omega)
            simp only [sessionRun, sessionStep_grabFail_lt c h5]
            exact ⟨hrec.1, fun ht =>
              ⟨(hrec.2 ht).1, List.mem_append_right _ ((hrec.2 ht).2)⟩⟩
          · have hc4 : c = 4 := by omega
            subst hc4
            simp [sessionRun, sessionStep]
      | retrieveFail =>
          rcases Nat.lt_or_ge (c + 1) 5 with h5 | h5
          · have hrec := ih (c + 1) (by omega)
            simp only [sessionRun, sessionStep_retrieveFail_lt c h5]
            exact ⟨hrec.1, fun ht =>
              ⟨(hrec.2 ht).1, List.mem_append_right _ ((hrec.2 ht).2)⟩⟩
          · have hc4 : c = 4 := by omega
            subst hc4
            simp [sessionRun, sessionStep]
      | encodeFail =>
          have hrec := ih 0 (by omega)
          simp only [sessionRun, sessionStep]
          simpa using hrec
      | success p =>
          have hrec := ih 0 (by omega)
          simp only [sessionRun, sessionStep]
          exact ⟨hrec.1, fun ht =>
            ⟨(hrec.2 ht).1, List.mem_append_right _ ((hrec.2 ht).2)⟩⟩

/-- Shape of a session consisting of k failed reads below the threshold
followed by one successful read: the counter ends at zero, the loop did
not terminate, and the trace is k paced misses then the emitted frame. -/
theorem sessionRun_fail_then_success (k : Nat) :
    ∀ c, c + k < 5 → ∀ p : List Byte,
      sessionRun c (List.replicate k ReadOutcome.grabFail ++ [ReadOutcome.success p])
        = ⟨0, List.replicate k Event.sleep20ms
              ++ [Event.emit (wrapFrame p), Event.sleep20ms], false⟩ := by
  induction k with
  | zero =>
      intro c hc p
      simp [sessionRun, sessionStep]
  | succ k ih =>
      intro c hc p
      rw [List.replicate_succ, List.cons_append]
      simp only [sessionRun, sessionStep_grabFail_lt c (by omega)]
      rw [ih (c + 1) (by omega) p]
      simp [List.replicate_succ]

/-- The chunk built by the source and the framing prescribed by the spec
agree on every payload: the two adjacent byte literals concatenate to
the single header of the spec. -/
theorem wrapFrame_eq_spec (p : List Byte) : wrapFrame p = specMultipartFraming p := by
  have h : asciiBytes "--frame\r\n" ++ asciiBytes "Content-Type: image/jpeg\r\n\r\n"
      = asciiBytes "--frame\r\nContent-Type: image/jpeg\r\n\r\n" := by decide
  unfold wrapFrame specMultipartFraming
  rw [← h, List.append_assoc]

/-- Every chunk emitted anywhere in a session is wrapFrame of some
payload: the yield at lines 123-124 is the only emission site. -/
theorem sessionRun_emit_wrapped (outcomes : List ReadOutcome) :
    ∀ c bytes, Event.emit bytes ∈ (sessionRun c outcomes).events →
      ∃ q, bytes = wrapFrame q := by
  induction outcomes with
  | nil =>
      intro c bytes h
      simp [sessionRun] at h
  | cons o rest ih =>
      intro c bytes h
      cases o with
      | grabFail =>
          rcases Nat.lt_or_ge (c + 1) 5 with h5 | h5
          · simp only [sessionRun, sessionStep_grabFail_lt c h5] at h
            rcases List.mem_append.mp h with h1 | h2
            · simp at h1
            · exact ih _ _ h2
          · simp only [sessionRun, sessionStep_grabFail_ge c h5] at h
            simp at h
      | retrieveFail =>
          rcases Nat.lt_or_ge (c + 1) 5 with h5 | h5
          · simp only [sessionRun, sessionStep_retrieveFail_lt c h5] at h
            rcases List.mem_append.mp h with h1 | h2
            · simp at h1
            · exact ih _ _ h2
          · simp only [sessionRun, sessionStep_retrieveFail_ge c h5] at h
            simp at h
      | encodeFail =>
          simp only [sessionRun, sessionStep] at h
          exact ih _ _ (by simpa using h)
      | success p =>
          simp only [sessionRun, sessionStep] at h
          rcases List.mem_append.mp h with h1 | h2
          · rcases List.mem_cons.mp h1 with h3 | h4
            · exact ⟨p, by injection h3⟩
            · simp at h4
          · exact ih _ _ h2

/-- With no link, no handler ever produces one. -/
theorem execCommand_none_link (cmd : Command) : (execCommand none cmd).link = none := by
  cases cmd with
  | joy b => cases b <;> rfl
  | run b => cases b <;> rfl

/-- Processing any command sequence from the no-link state leaves the
link absent and makes every handler call run against the absent link. -/
theorem processCommands_from_none (cmds : List Command) :
    processCommands none cmds = (none, cmds.map (execCommand none)) := by
  induction cmds with
  | nil => rfl
  | cons cm rest ih =>
      simp only [processCommands, List.map, execCommand_none_link cm, ih]

/-- Trace shape of the outer loop when the camera never opens: no frame
is ever emitted, each of the n cycles contributes exactly its open
attempt and 2 s sleep, and the open attempts number n. -/
theorem generateFramesNoCamera_shape (n : Nat) :
    emitsFrame (generateFramesNoCamera n) = false ∧
    (generateFramesNoCamera n).length = 2 * n ∧
    countOpenAttempts (generateFramesNoCamera n) = n := by
  induction n with
  | zero => simp [generateFramesNoCamera, emitsFrame, countOpenAttempts]
  | succ n ih =>
      refine ⟨?_, ?_, ?_⟩
      · simpa [generateFramesNoCamera, emitsFrame] using ih.1
      · have := ih.2.1
        simp only [generateFramesNoCamera, List.length_cons]
        omega
      · simpa [generateFramesNoCamera, countOpenAttempts] using ih.2.2

/-! Claim theorems. -/

set_option maxRecDepth 4000 in
/-- Claim C1, counterexample: when no camera backend can be opened, one
hundred cycles of the generator produce one hundred open attempts and
not a single emitted frame, so the generator does not emit placeholder
frames at a steady interval as the claim states: the code has no
placeholder path at all. -/
theorem video_feed_no_camera_counterexample :
    emitsFrame (generateFramesNoCamera 100) = false ∧
    countOpenAttempts (generateFramesNoCamera 100) = 100 := by decide

/-- Claim C1, amended: if no camera backend can ever be opened, the
generator neither raises nor terminates, looping with one open attempt
and one 2 s sleep per cycle for any number of cycles, but it yields no
output at all: no placeholder frames are emitted, so the multipart body
stays empty while the connection stays open. -/
theorem video_feed_no_camera_amended (n : Nat) :
    emitsFrame (generateFramesNoCamera n) = false ∧
    (generateFramesNoCamera n).length = 2 * n ∧
    countOpenAttempts (generateFramesNoCamera n) = n :=
  generateFramesNoCamera_shape n

/-- Claim C2: for every sequence of read outcomes, the consecutive
failure counter never exceeds the threshold of 5 — while the session is
still running it is at most 4 — and as soon as it reaches 5 the session
terminates with the handle released, the trace continuing with the
finally-release, the 1 s drain pause, and the reopen attempt. -/
theorem capture_failure_threshold (outcomes : List ReadOutcome) :
    (sessionRun 0 outcomes).counter ≤ 5 ∧
    ((sessionRun 0 outcomes).terminated = false →
      (sessionRun 0 outcomes).counter ≤ 4) ∧
    ((sessionRun 0 outcomes).terminated = true →
      (sessionRun 0 outcomes).counter = 5 ∧
      Event.release ∈ (sessionRun 0 outcomes).events ∧
      sessionTrace outcomes = (sessionRun 0 outcomes).events ++ recoveryTail) := by
  have h := sessionRun_counter_invariant outcomes 0 (by omega)
  refine ⟨?_, h.1, fun ht => ⟨(h.2 ht).1, (h.2 ht).2, by simp [sessionTrace, ht]⟩⟩
  cases hb : (sessionRun 0 outcomes).terminated with
  | false => exact Nat.le_trans (h.1 hb) (by omega)
  | true => exact Nat.le_of_eq (h.2 hb).1

/-- Claim C2, witness: five consecutive failed grabs terminate the
session at counter 5 with the handle released and the recovery tail
appended to the trace. -/
theorem capture_failure_threshold_witness :
    (sessionRun 0 (List.replicate 5 ReadOutcome.grabFail)).counter = 5 ∧
    Event.release ∈ (sessionRun 0 (List.replicate 5 ReadOutcome.grabFail)).events ∧
    sessionTrace (List.replicate 5 ReadOutcome.grabFail)
      = (sessionRun 0 (List.replicate 5 ReadOutcome.grabFail)).events ++ recoveryTail :=
  (capture_failure_threshold (List.replicate 5 ReadOutcome.grabFail)).2.2 (by decide)

/-- Claim C3: the chunk the generator yields for a non-empty JPEG payload
is byte-exactly the multipart framing the spec prescribes, and every
chunk emitted anywhere in a session has that exact shape for some
payload. -/
theorem multipart_framing_exact (p : List Byte) (hp : p ≠ []) :
    wrapFrame p = specMultipartFraming p ∧
    ∀ (outcomes : List ReadOutcome) (bytes : List Byte),
      Event.emit bytes ∈ (sessionRun 0 outcomes).events →
      ∃ q, bytes = specMultipartFraming q := by
  refine ⟨wrapFrame_eq_spec p, fun outcomes bytes h => ?_⟩
  rcases sessionRun_emit_wrapped outcomes 0 bytes h with ⟨q, hq⟩
  exact ⟨q, by rw [hq, wrapFrame_eq_spec]⟩

/-- Claim C3, witness: the framing equality evaluated on a concrete
four-byte payload. -/
theorem multipart_framing_exact_witness :
    wrapFrame [255, 216, 255, 217] = specMultipartFraming [255, 216, 255, 217] :=
  (multipart_framing_exact [255, 216, 255, 217] (by decide)).1

/-- Claim C4: a successful read resets the counter to zero from any
value, and a session of k failures (k below the threshold) followed by
one success ends at counter zero without terminating and without any
release of the handle. -/
theorem success_resets_failure_counter (c k : Nat) (p : List Byte) (hk : k < 5) :
    (sessionStep c (ReadOutcome.success p)).counter = 0 ∧
    (sessionRun 0 (List.replicate k ReadOutcome.grabFail
        ++ [ReadOutcome.success p])).counter = 0 ∧
    (sessionRun 0 (List.replicate k ReadOutcome.grabFail
        ++ [ReadOutcome.success p])).terminated = false ∧
    Event.release ∉ (sessionRun 0 (List.replicate k ReadOutcome.grabFail
        ++ [ReadOutcome.success p])).events := by
  have h := sessionRun_fail_then_success k 0 (by omega) p
  refine ⟨rfl, by rw [h], by rw [h], ?_⟩
  rw [h]
  simp [List.mem_replicate]

/-- Claim C4, witness: four failures (threshold minus one) followed by a
success, and a reset from the arbitrary counter value 7. -/
theorem success_resets_failure_counter_witness :
    (sessionStep 7 (ReadOutcome.success [0])).counter = 0 ∧
    (sessionRun 0 (List.replicate 4 ReadOutcome.grabFail
        ++ [ReadOutcome.success [0]])).counter = 0 ∧
    (sessionRun 0 (List.replicate 4 ReadOutcome.grabFail
        ++ [ReadOutcome.success [0]])).terminated = false ∧
    Event.release ∉ (sessionRun 0 (List.replicate 4 ReadOutcome.grabFail
        ++ [ReadOutcome.success [0]])).events :=
  success_resets_failure_counter 7 4 [0] (by decide)

/-- Claim C5: an encode failure emits nothing for that cycle and leaves
the consecutive-failure counter at zero (the value the preceding
successful read reset it to, at most any earlier value), so an encode
failure never counts toward the reconnect threshold and never
terminates the session. -/
theorem encode_failure_is_skip (c : Nat) :
    (sessionStep c ReadOutcome.encodeFail).events = [] ∧
    (sessionStep c ReadOutcome.encodeFail).counter = 0 ∧
    (sessionStep c ReadOutcome.encodeFail).counter ≤ c ∧
    (sessionStep c ReadOutcome.encodeFail).terminated = false :=
  ⟨rfl, rfl, Nat.zero_le c, rfl⟩

/-- Claim C8, counterexample: an encode-failure iteration does not
terminate the session, yet its events contain no 20 ms pause — the
continue at line 121 of app.py jumps straight to the next read, skipping
the pause at line 136 — refuting the claim that every non-terminating
iteration is followed by the fixed delay. -/
theorem inter_frame_delay_counterexample :
    (sessionStep 2 ReadOutcome.encodeFail).terminated = false ∧
    Event.sleep20ms ∉ (sessionStep 2 ReadOutcome.encodeFail).events := by decide

/-- Claim C8, amended: every non-terminating iteration whose outcome is
a successful emission or a read failure ends with the 20 ms pause; an
encode-failure iteration performs no events at all, skipping the pause;
and the terminating iteration at the threshold releases the handle
without pausing. -/
theorem inter_frame_delay_amended (c : Nat) (o : ReadOutcome) :
    (o ≠ ReadOutcome.encodeFail → (sessionStep c o).terminated = false →
      Event.sleep20ms ∈ (sessionStep c o).events) ∧
    (o = ReadOutcome.encodeFail → (sessionStep c o).events = []) ∧
    ((sessionStep c o).terminated = true →
      Event.sleep20ms ∉ (sessionStep c o).events) := by
  cases o with
  | grabFail =>
      rcases Nat.lt_or_ge (c + 1) 5 with h5 | h5
      · rw [sessionStep_grabFail_lt c h5]; simp
      · rw [sessionStep_grabFail_ge c h5]; simp
  | retrieveFail =>
      rcases Nat.lt_or_ge (c + 1) 5 with h5 | h5
      · rw [sessionStep_retrieveFail_lt c h5]; simp
      · rw [sessionStep_retrieveFail_ge c h5]; simp
  | encodeFail => simp [sessionStep]
  | success p => simp [sessionStep]

/-- Claim C8, witness: a successful iteration at counter 0 contains the
20 ms pause. -/
theorem inter_frame_delay_amended_witness :
    Event.sleep20ms ∈ (sessionStep 0 (ReadOutcome.success [0])).events :=
  (inter_frame_delay_amended 0 (ReadOutcome.success [0])).1 (by decide) rfl

/-- Claim C6, counterexample: with a link object present but its port
unusable (the closed-link case of the claim), the write raises, the
except clause answers with status 500 and an error body — not the
success response the claim promises for an absent or closed link. -/
theorem command_link_counterexample :
    (joystick (some ⟨false, []⟩) (some exampleBody)).status = 500 ∧
    Json.getField (joystick (some ⟨false, []⟩) (some exampleBody)).body "status"
      = some (Json.str "error") := ⟨rfl, rfl⟩

/-- Claim C6, amended: when the link variable is None the caller of a
command endpoint with a valid JSON body still receives 200 with status
ok and the echoed payload, and the command is silently dropped (no link
state appears); but when a link object exists and its port is unusable
the write raises and the caller receives a 500 error response, the link
left unchanged. -/
theorem command_link_absent_amended (data : Json) (l : Link) (hl : l.isOpen = false) :
    ((joystick none (some data)).status = 200 ∧
     (joystick none (some data)).body = okBody data ∧
     (joystick none (some data)).link = none) ∧
    ((joystick (some l) (some data)).status = 500 ∧
     Json.getField (joystick (some l) (some data)).body "status"
       = some (Json.str "error") ∧
     (joystick (some l) (some data)).link = some l) := by
  refine ⟨⟨rfl, rfl, rfl⟩, ?_⟩
  simp [joystick, linkWrite, hl, errorBody, Json.getField, JsonFields.findField]

/-- Claim C6, witness: the amended statement evaluated at a null body, an
absent link, and a concrete unusable link with one line already
written. -/
theorem command_link_absent_amended_witness :
    ((joystick none (some Json.null)).status = 200 ∧
     (joystick none (some Json.null)).body = okBody Json.null ∧
     (joystick none (some Json.null)).link = none) ∧
    ((joystick (some ⟨false, [[110]]⟩) (some Json.null)).status = 500 ∧
     Json.getField (joystick (some ⟨false, [[110]]⟩) (some Json.null)).body "status"
       = some (Json.str "error") ∧
     (joystick (some ⟨false, [[110]]⟩) (some Json.null)).link = some ⟨false, [[110]]⟩) :=
  command_link_absent_amended Json.null ⟨false, [[110]]⟩ rfl

/-- Claim C7: in every state the startup can leave the link in (absent,
or open and usable), a POST to the joystick endpoint with a valid JSON
body returns 200 with status ok and the echoed payload, and with a
non-JSON body returns 500 — a non-2xx status — with status field
error. -/
theorem joystick_http_contract (arduino : Option Link) (data : Json)
    (h : ∀ l, arduino = some l → l.isOpen = true) :
    ((joystick arduino (some data)).status = 200 ∧
     (joystick arduino (some data)).body = okBody data) ∧
    ((joystick arduino none).status = 500 ∧
     ¬ (200 ≤ (joystick arduino none).status ∧ (joystick arduino none).status < 300) ∧
     Json.getField (joystick arduino none).body "status" = some (Json.str "error")) := by
  have herr : Json.getField (joystick arduino none).body "status"
      = some (Json.str "error") := by
    simp [joystick, errorBody, Json.getField, JsonFields.findField]
  have hns : ¬ (200 ≤ (joystick arduino none).status ∧
      (joystick arduino none).status < 300) := by
    have hs : (joystick arduino none).status = 500 := rfl
    rw [hs]
    decide
  cases arduino with
  | none => exact ⟨⟨rfl, rfl⟩, rfl, hns, herr⟩
  | some l =>
      have hl := h l rfl
      refine ⟨?_, rfl, hns, herr⟩
      constructor <;> simp [joystick, linkWrite, hl]

/-- Claim C7, witness: the contract evaluated with an absent link and the
example body with x mapped to 1 and y to -1. -/
theorem joystick_http_contract_witness :
    ((joystick none (some exampleBody)).status = 200 ∧
     (joystick none (some exampleBody)).body = okBody exampleBody) ∧
    ((joystick none none).status = 500 ∧
     ¬ (200 ≤ (joystick none none).status ∧ (joystick none none).status < 300) ∧
     Json.getField (joystick none none).body "status" = some (Json.str "error")) :=
  joystick_http_contract none exampleBody (fun l hl => nomatch hl)

/-- Claim C10: when the single startup open attempt fails, the link stays
None across any sequence of command submissions — every handler call
runs against the absent link, no reopen is ever attempted (the handlers
contain no open operation), and each valid command is answered 200 with
the echoed payload while producing no link — whereas the camera side
keeps attempting one reopen per cycle without bound. -/
theorem link_opened_once (cmds : List Command) (n : Nat) (data : Json) :
    (processCommands (initLink false) cmds).1 = none ∧
    (processCommands (initLink false) cmds).2 = cmds.map (execCommand none) ∧
    (execCommand none (Command.joy (some data))).status = 200 ∧
    (execCommand none (Command.joy (some data))).body = okBody data ∧
    (execCommand none (Command.joy (some data))).link = none ∧
    (execCommand none (Command.run (some data))).status = 200 ∧
    (execCommand none (Command.run (some data))).link = none ∧
    countOpenAttempts (generateFramesNoCamera n) = n := by
  have h1 : initLink false = none := rfl
  rw [h1, processCommands_from_none cmds]
  exact ⟨rfl, rfl, rfl, rfl, rfl, rfl, rfl, (generateFramesNoCamera_shape n).2.2⟩

end App
